import Mathlib

/-!
Verification development for the AMV toolkit media-processing console.

The Python sources are shallowly embedded in Lean:

* Python strings are `List Char` where proofs need their structure, and
  `String` where concrete evaluation suffices;
* Python JSON-ish values (the raw configuration) are `PyVal`;
* the on-disk file system seen by the separation job is an association list
  from paths to content identifiers;
* external collaborators (pip, yt-dlp, the separation library) are oracles:
  their observable responses are parameters of the embedded functions.

Each definition mirrors one function of the source tree (the mirrored file and
function are named in its doc comment); the theorems at the end of the file
establish or refute the documented properties.
-/

namespace AMV

/-! ## String helpers (Python `str` methods) -/

/-- ASCII whitespace as recognised by Python `str.strip`. -/
def pyIsSpace (c : Char) : Bool :=
  c = ' ' || c = '\t' || c = '\n' || c = '\r' || c = '\x0b' || c = '\x0c'

/-- Python `str.strip()`: drop leading and trailing whitespace. -/
def pyStrip (s : List Char) : List Char :=
  (s.dropWhile pyIsSpace).rdropWhile pyIsSpace

/-- Python `str.lower()` (ASCII as used by the config and file names). -/
def pyLower (s : List Char) : List Char :=
  s.map Char.toLower

/-- Python `needle in hay` substring test. -/
def pyContains (hay needle : List Char) : Bool :=
  (List.range (hay.length + 1)).any (fun i => needle.isPrefixOf (hay.drop i))

/-- Python `str.startswith`. -/
def pyStartsWith (s pre : List Char) : Bool :=
  pre.isPrefixOf s

/-! ## Python values and the persisted configuration

Source: `src/amv/config.py`. -/

/-- A Python value as it may appear in the loaded JSON configuration. -/
inductive PyVal where
  | vstr : List Char → PyVal
  | vint : Int → PyVal
  | vbool : Bool → PyVal
  | vlist : List PyVal → PyVal
  | vnone : PyVal
  /-- Any other Python value (float, nested object, …), carrying only its
  truthiness: the config code never inspects such values beyond `bool(·)` and
  failed `isinstance` checks. -/
  | vother : Bool → PyVal

/-- The raw object handed to `_normalize_config`.  Either not a `dict` at all,
or a `dict` from which only the four schema keys are read (unknown keys are
dropped by the function, so they are not modelled).  A field of `none` models
a missing key. -/
inductive RawConfig where
  | notDict
  | dict (recent_files max_recent force_cpu setup_type : Option PyVal)

/-- The normalised configuration record: output shape of `_normalize_config`. -/
structure NormConfig where
  recent_files : List (List Char)
  max_recent : Int
  force_cpu : Bool
  setup_type : List Char
deriving DecidableEq

/-- `DEFAULT_CONFIG` from `src/amv/config.py`. -/
def defaultConfig : NormConfig :=
  { recent_files := [], max_recent := 10, force_cpu := false,
    setup_type := "cpu".toList }

/-- Python truthiness, for `bool(config.get("force_cpu", False))`. -/
def pyBool : PyVal → Bool
  | .vstr s => !s.isEmpty
  | .vint n => n ≠ 0
  | .vbool b => b
  | .vlist l => !l.isEmpty
  | .vnone => false
  | .vother t => t

/-- The `recent_files` cleaning loop of `_normalize_config`
(`src/amv/config.py` lines 36-46): keep strings, strip them, drop empties and
anything already seen. -/
def cleanRecents : List PyVal → List (List Char) → List (List Char)
  | [], _ => []
  | .vstr s :: rest, seen =>
    let s' := pyStrip s
    if s' = [] ∨ s' ∈ seen then cleanRecents rest seen
    else s' :: cleanRecents rest (s' :: seen)
  | _ :: rest, seen => cleanRecents rest seen

/-- The `recent_files` branch of `_normalize_config`: cleaned when the stored
value is a list, otherwise the default `[]` is kept. -/
def normRecents : PyVal → List (List Char)
  | .vlist l => cleanRecents l []
  | _ => defaultConfig.recent_files

/-- The `max_recent` branch of `_normalize_config`: clamped to `[1, 50]` when
the stored value passes `isinstance(·, int)` (which in Python a `bool` also
does, counting as 0 or 1), otherwise the default 10 is kept. -/
def normMaxRecent : PyVal → Int
  | .vint n => max 1 (min 50 n)
  | .vbool b => max 1 (min 50 (if b then (1 : Int) else 0))
  | _ => 10

/-- The `setup_type` branch of `_normalize_config`: accepted case-insensitively
when it is a string in `{cpu, gpu}`, otherwise the default `"cpu"`. -/
def normSetup : PyVal → List Char
  | .vstr s =>
    if pyLower s = "cpu".toList ∨ pyLower s = "gpu".toList then pyLower s
    else "cpu".toList
  | _ => "cpu".toList

/-- The mode-coherence step of `_normalize_config` (lines 58-62). -/
def coherencePair (setup : List Char) (force : Bool) : List Char × Bool :=
  if setup = "gpu".toList then (setup, false)
  else if force then ("cpu".toList, force)
  else (setup, force)

/-- `_normalize_config` from `src/amv/config.py`.

Mirrors the source order: non-dict input returns a copy of the defaults;
`recent_files` is cleaned only when it is a list; `max_recent` is clamped to
`[1, 50]` when it is an `int` (in Python a `bool` is an `int`, so `vbool`
also passes the `isinstance` check and is clamped as its 0/1 value);
`force_cpu` is Python truthiness; `setup_type` is lower-cased and accepted
only in `{cpu, gpu}`; the mode-coherence rules run next, and the recent list
is capped by `max_recent` last. -/
def normalize_config : RawConfig → NormConfig
  | .notDict => defaultConfig
  | .dict rfv mrv fcv stv =>
    let recents := normRecents (rfv.getD (.vlist []))
    let maxr := normMaxRecent (mrv.getD (.vint 10))
    let force := pyBool (fcv.getD (.vbool false))
    let setup := normSetup (stv.getD (.vstr "cpu".toList))
    let pair := coherencePair setup force
    { recent_files := recents.take maxr.toNat,
      max_recent := maxr,
      force_cpu := pair.2,
      setup_type := pair.1 }

/-- Re-inject a normalised record as the raw dict that `save_config` (and a
second `_normalize_config` pass) would receive. -/
def toRaw (c : NormConfig) : RawConfig :=
  .dict (some (.vlist (c.recent_files.map .vstr)))
        (some (.vint c.max_recent))
        (some (.vbool c.force_cpu))
        (some (.vstr c.setup_type))

/-- The §3 mode-coherence invariant of a configuration record. -/
def Coherent (c : NormConfig) : Prop :=
  (c.setup_type = "gpu".toList → c.force_cpu = false) ∧
  (c.force_cpu = true → c.setup_type = "cpu".toList)

instance (c : NormConfig) : Decidable (Coherent c) := by
  unfold Coherent; infer_instance

/-- An entry the cleaning loop would keep unchanged: already stripped and
non-empty. -/
def CleanEntry (s : List Char) : Prop :=
  pyStrip s = s ∧ s ≠ []

/-- A recent-files list in normal form. -/
def CleanList (l : List (List Char)) : Prop :=
  (∀ s ∈ l, CleanEntry s) ∧ l.Nodup

/-- Full well-formedness of a normalised record. -/
def IsNormal (c : NormConfig) : Prop :=
  CleanList c.recent_files ∧
  c.recent_files.length ≤ c.max_recent.toNat ∧
  1 ≤ c.max_recent ∧ c.max_recent ≤ 50 ∧
  (c.setup_type = "cpu".toList ∨ c.setup_type = "gpu".toList) ∧
  Coherent c

instance (c : NormConfig) : Decidable (IsNormal c) := by
  unfold IsNormal CleanList CleanEntry; infer_instance

/-- `add_recent_file` from `src/amv/config.py`, acting on a loaded
configuration `c` (`load_config` always returns a `_normalize_config` output
or a copy of the defaults, so `c` is a normalised record).  Removes the first
occurrence of `path` when present, inserts `path` at the front, caps by
`max_recent`, and persists through `save_config`, which normalises the dict
again before writing it. -/
def add_recent_file (c : NormConfig) (path : List Char) : NormConfig :=
  let recents := c.recent_files
  let recents := if path ∈ recents then recents.erase path else recents
  let recents := path :: recents
  let capped := recents.take c.max_recent.toNat
  normalize_config (toRaw { c with recent_files := capped })

/-! ## Model selection

Source: `src/amv/models.py`. -/

/-- The per-mode runtime settings of a model preset. -/
structure ModelSettings where
  fp16 : Bool
  batch_size : Nat
deriving DecidableEq

/-- One entry of `MODEL_PRESETS`. -/
structure ModelPreset where
  display : String
  mtype : String
  cpu : ModelSettings
  gpu : Option ModelSettings

def KIM_VOCAL_2 : String := "Kim_Vocal_2.onnx"

def BS_ROFORMER : String := "model_bs_roformer_ep_317_sdr_12.9755.ckpt"

/-- The static `MODEL_PRESETS` registry of `src/amv/models.py` as a lookup. -/
def MODEL_PRESETS (name : String) : Option ModelPreset :=
  if name = KIM_VOCAL_2 then
    some { display := "Kim Vocal 2 (ONNX)", mtype := "onnx",
           cpu := ⟨false, 1⟩, gpu := none }
  else if name = BS_ROFORMER then
    some { display := "BS-Roformer (Best Quality)", mtype := "pytorch",
           cpu := ⟨false, 1⟩, gpu := some ⟨true, 1⟩ }
  else none

/-- The hardware-info dict of `src/amv/hardware.py` as read through
`dict.get` by `src/amv/models.py`: `gpu_type` (`none` models a missing key,
whose Python `.get` result `None` compares unequal to the string `"cpu"`),
the `fp16_capable` flag, and the VRAM amount (never read by selection). -/
structure HwInfo where
  gpu_type : Option String
  fp16_capable : Bool
  vram_bytes : Option Nat

/-- `get_active_model` from `src/amv/models.py`: the BS-Roformer model only
when a GPU is reported and CUDA torch is usable (`fp16_capable`), otherwise
Kim Vocal 2. -/
def get_active_model (hw : HwInfo) : String :=
  if hw.gpu_type ≠ some "cpu" ∧ hw.fp16_capable then BS_ROFORMER
  else KIM_VOCAL_2

/-- `get_model_settings` from `src/amv/models.py`.  `hw = none` models the
`hw_info=None` default argument (which is falsy, so the GPU branch is never
taken). -/
def get_model_settings (model_filename : String) (hw : Option HwInfo) :
    ModelSettings :=
  match MODEL_PRESETS model_filename with
  | none => ⟨false, 1⟩
  | some preset =>
    match hw with
    | some h =>
      if h.gpu_type ≠ some "cpu" ∧ preset.gpu.isSome then preset.gpu.getD preset.cpu
      else preset.cpu
    | none => preset.cpu

/-! ## Switch command plans

Source: `src/amv/gpu.py`.  `py` stands for `sys.executable`. -/

/-- `get_torch_install_cmd` from `src/amv/gpu.py`. -/
def get_torch_install_cmd (py : String) (gpu : Bool) : List String :=
  [py, "-m", "pip", "install", "torch", "torchvision", "torchaudio",
   "--index-url"] ++
    (if gpu then ["https://download.pytorch.org/whl/cu128"]
     else ["https://download.pytorch.org/whl/cpu"])

/-- `get_gpu_switch_cmds` from `src/amv/gpu.py`. -/
def get_gpu_switch_cmds (py : String) : List (List String) :=
  [[py, "-m", "pip", "uninstall", "-y", "torch", "torchvision", "torchaudio"],
   [py, "-m", "pip", "install", "torch", "torchvision", "torchaudio",
    "--index-url", "https://download.pytorch.org/whl/cu128"],
   [py, "-m", "pip", "install", "audio-separator[gpu]"]]

/-- `get_cpu_switch_cmds` from `src/amv/gpu.py`. -/
def get_cpu_switch_cmds (py : String) : List (List String) :=
  [[py, "-m", "pip", "uninstall", "-y", "torch", "torchvision", "torchaudio"],
   [py, "-m", "pip", "install", "torch", "torchvision", "torchaudio",
    "--index-url", "https://download.pytorch.org/whl/cpu"],
   [py, "-m", "pip", "install", "onnxruntime"],
   [py, "-m", "pip", "install", "audio-separator"]]

/-! ## Setup screen: switch collection and the install worker

Source: `src/amv/screens/setup.py`. -/

/-- Data collected by `_collect_gpu_switch` / `_collect_cpu_switch` (the UI
row strings and the detected GPU name are presentation only and omitted). -/
structure CheckResults where
  issues : List String
  installs : List (List String)
  success_mode : Option String

/-- `_collect_gpu_switch` (lines 152-194): `current` is the stored
`setup_type`, `cuda_ready` the live `verify_cuda_torch()` probe. -/
def collect_gpu_switch (cuda_ready : Bool) (current : String) (py : String) :
    CheckResults :=
  if cuda_ready ∧ current = "gpu" then
    { issues := [], installs := [], success_mode := some "gpu" }
  else
    { issues := ["Uninstall CPU-only torch",
                 "Install PyTorch with CUDA 12.8 (cu128) for RTX 50 series",
                 "Install audio-separator[gpu]"],
      installs := get_gpu_switch_cmds py,
      success_mode := none }

/-- `_collect_cpu_switch` (lines 200-235). -/
def collect_cpu_switch (cuda_ready : Bool) (current : String) (py : String) :
    CheckResults :=
  if current = "cpu" ∧ ¬cuda_ready then
    { issues := [], installs := [], success_mode := some "cpu" }
  else
    { issues := ["Uninstall CUDA torch", "Install CPU-only PyTorch",
                 "Install onnxruntime for ONNX models"],
      installs := get_cpu_switch_cmds py,
      success_mode := none }

/-- `_show_success_for_mode` (lines 385-413): reload the config, set the mode
fields for `mode`, and `save_config` (which normalises before writing). -/
def show_success_for_mode (c : NormConfig) (mode : String) : NormConfig :=
  if mode = "gpu" then
    normalize_config (toRaw { c with setup_type := "gpu".toList, force_cpu := false })
  else
    normalize_config (toRaw { c with setup_type := "cpu".toList, force_cpu := true })

/-- `_apply_results` (lines 330-352) on collected results: with a
`success_mode` the success panel is shown and the config saved for that mode
(installation is skipped); otherwise, when issues exist, the issues panel
with the install button is shown.  Returns the persisted config, if any, and
whether the install button (the only path to `_start_installation`) is
offered. -/
def apply_results (r : CheckResults) (c : NormConfig) :
    Option NormConfig × Bool :=
  match r.success_mode with
  | some m => (some (show_success_for_mode c m), false)
  | none => (none, !r.issues.isEmpty)

/-- Observable result of launching one install command inside
`_install_worker`: a completed process (return code plus the lines of its
stripped stderr), the 600 s timeout, or a raised exception. -/
inductive StepResult where
  | completed (returncode : Int) (stderrLines : List String)
  | timedOut
  | raised (msg : String)

/-- The stderr filter of `_install_worker` (lines 473-479): drop blank lines,
`[notice]` lines and pip self-update notices. -/
def realErrors (lines : List String) : List String :=
  lines.filter (fun l =>
    !(pyStrip l.toList).isEmpty &&
    !pyStartsWith (pyStrip l.toList) "[notice]".toList &&
    !pyContains l.toList "A new release of pip".toList &&
    !pyContains l.toList "To update, run:".toList)

/-- The error-message classification of `_install_worker` (lines 468-487):
start from the exit code; when stderr has content, prefer the last line
carrying an error marker, else the last real line; map Windows lock errors to
a user-actionable message. -/
def classifyError (returncode : Int) (stderrLines : List String) : String :=
  let base := "exit code " ++ toString returncode
  if stderrLines.any (fun l => !(pyStrip l.toList).isEmpty) then
    let real := realErrors stderrLines
    if real.isEmpty then base
    else
      let errorLines := real.filter (fun l =>
        pyContains l.toList "ERROR:".toList ||
        pyContains (pyLower l.toList) "error:".toList)
      let msg := if errorLines.isEmpty then real.getLastD base
                 else errorLines.getLastD base
      if pyContains msg.toList "Access is denied".toList ||
         pyContains msg.toList "WinError 5".toList then
        "File locked - close other AMV/Python instances and retry"
      else msg
  else base

/-- The error entry `_install_worker` appends for its `i`-th (0-based) step,
if any. -/
def stepError (i : Nat) : StepResult → Option String
  | .completed rc stderr =>
    if rc ≠ 0 then
      some ("Step " ++ toString (i + 1) ++ ": " ++ classifyError rc stderr)
    else none
  | .timedOut => some ("Step " ++ toString (i + 1) ++ ": Timed out")
  | .raised msg => some ("Step " ++ toString (i + 1) ++ ": " ++ msg)

/-- The `_install_worker` loop (lines 440-503).  Each plan entry is paired
with the `worker.is_cancelled` flag observed at the top of its iteration and
the result its subprocess produced.  Returns how many steps were launched,
the collected error list, and whether the loop ran to completion (a
cancelled run returns from the worker early). -/
def install_worker_loop : List (Bool × StepResult) → Nat →
    Nat × List String × Bool
  | [], _ => (0, [], true)
  | (cancelled, r) :: rest, i =>
    if cancelled then (0, [], false)
    else
      let out := install_worker_loop rest (i + 1)
      (out.1 + 1,
       (match stepError i r with
        | some e => e :: out.2.1
        | none => out.2.1),
       out.2.2)

/-- The tail of `_install_worker` (lines 505-510) composed with
`_install_complete` → `_show_success_for_mode`: only a run that completed its
loop with an empty error list saves the config for the target mode
(`_install_failed` saves nothing, and a cancelled worker never reaches the
tail).  Returns (steps launched, errors, persisted config if any). -/
def install_worker_outcome (steps : List (Bool × StepResult)) (c : NormConfig)
    (target_mode : String) : Nat × List String × Option NormConfig :=
  let out := install_worker_loop steps 0
  if out.2.2 ∧ out.2.1 = [] then
    (out.1, out.2.1, some (show_success_for_mode c target_mode))
  else (out.1, out.2.1, none)

/-! ## YouTube download worker

Source: `src/amv/screens/youtube.py`, `_download_worker`. -/

/-- Match the progress regex of `_download_worker`
(`[download]` followed by whitespace, digits, an optional fraction and `%`)
at the start of `s`, returning the captured numeric text. -/
def pctMatchAt (s : List Char) : Option (List Char) :=
  if "[download]".toList.isPrefixOf s then
    let rest := s.drop "[download]".toList.length
    let ws := rest.takeWhile pyIsSpace
    if ws.isEmpty then none
    else
      let rest2 := rest.drop ws.length
      let digits := rest2.takeWhile Char.isDigit
      if digits.isEmpty then none
      else
        match rest2.drop digits.length with
        | '%' :: _ => some digits
        | '.' :: rest4 =>
          let frac := rest4.takeWhile Char.isDigit
          match rest4.drop frac.length with
          | '%' :: _ => some (digits ++ '.' :: frac)
          | _ => none
        | _ => none
  else none

/-- `pct_re.search(line)`: the leftmost match of the progress regex. -/
def parsePct (line : String) : Option (List Char) :=
  (List.range (line.toList.length + 1)).findSome?
    (fun i => pctMatchAt (line.toList.drop i))

/-- One iteration of the `_download_worker` line loop (lines 260-287): bump
the destination counter on a `Destination:` line, then emit one bar update
for any parsed percentage — in video mode routed to the video bar while the
counter is at most 1 and to the audio bar afterwards, in audio mode always
to the audio bar.  Events are (bar id, percentage text). -/
def downloadStep (mode : String) (destCount : Nat) (line : String) :
    Nat × List (String × List Char) :=
  let destCount :=
    if pyContains line.toList "[download] Destination:".toList
    then destCount + 1 else destCount
  match parsePct line with
  | some pct =>
    if mode = "video" then
      if destCount ≤ 1 then (destCount, [("video-bar", pct)])
      else (destCount, [("audio-bar", pct)])
    else (destCount, [("audio-bar", pct)])
  | none => (destCount, [])

def downloadEventsFrom (mode : String) : Nat → List String →
    List (String × List Char)
  | _, [] => []
  | dc, line :: rest =>
    (downloadStep mode dc line).2 ++
      downloadEventsFrom mode (downloadStep mode dc line).1 rest

/-- All bar-update events `_download_worker` emits over a sequence of logical
progress lines (destination counter starts at 0). -/
def downloadEvents (mode : String) (lines : List String) :
    List (String × List Char) :=
  downloadEventsFrom mode 0 lines

/-! ## Inference-progress capture

Source: `src/amv/separator.py`, `TqdmCapture`. -/

/-- Numeric value of a digit string. -/
def digitsToNat (ds : List Char) : Nat :=
  ds.foldl (fun n c => n * 10 + (c.toNat - '0'.toNat)) 0

/-- Match the tqdm marker regex (digits followed by `%|`) at the start of
`s`. -/
def tqdmMatchAt (s : List Char) : Option Nat :=
  let digits := s.takeWhile Char.isDigit
  if digits.isEmpty then none
  else
    match s.drop digits.length with
    | '%' :: '|' :: _ => some (digitsToNat digits)
    | _ => none

/-- `TQDM_PATTERN.search`: the leftmost `N%|` marker in a written chunk. -/
def tqdmSearch (text : String) : Option Nat :=
  (List.range (text.toList.length + 1)).findSome?
    (fun i => tqdmMatchAt (text.toList.drop i))

/-- One `TqdmCapture.write` call with a callback installed: parse a marker
from non-blank text and emit its percentage only when it differs from
`last_percent` (initially -1), updating `last_percent` on emission. -/
def tqdmWrite (last : Int) (text : String) : Int × Option Nat :=
  if (pyStrip text.toList).isEmpty then (last, none)
  else
    match tqdmSearch text with
    | some p => if (p : Int) ≠ last then ((p : Int), some p) else (last, none)
    | none => (last, none)

def tqdmEventsFrom : Int → List String → List Nat
  | _, [] => []
  | last, t :: rest =>
    (match (tqdmWrite last t).2 with
     | some p => [p]
     | none => []) ++ tqdmEventsFrom (tqdmWrite last t).1 rest

/-- Percent events a fresh `TqdmCapture` emits over a sequence of writes. -/
def tqdmEvents (texts : List String) : List Nat :=
  tqdmEventsFrom (-1) texts

/-! ## Separation job

Source: `src/amv/separator.py`, `run_separation`. -/

/-- The file system visible to `run_separation`: paths bound to content
identifiers.  A rename moves an identifier to a new path; deleting a path
destroys its identifier. -/
abbrev FS := List (String × Nat)

def fsExists (fs : FS) (p : String) : Bool :=
  (fs.lookup p).isSome

def fsRemove (fs : FS) (p : String) : FS :=
  fs.filter (fun e => e.1 ≠ p)

def fsSet (fs : FS) (p : String) (v : Nat) : FS :=
  (p, v) :: fsRemove fs p

def fsRename (fs : FS) (src dst : String) : FS :=
  match fs.lookup src with
  | some v => fsSet (fsRemove fs src) dst v
  | none => fs

/-- Recursion core of `eraseMarker`, structured over a step-count fuel (each
step consumes at least one character, so `l.length` fuel always suffices)
rather than well-founded recursion, so that it reduces in the kernel. -/
def eraseMarkerGo : Nat → List Char → List Char
  | 0, l => l
  | _ + 1, [] => []
  | n + 1, c :: rest =>
    if " (original)".toList.isPrefixOf (c :: rest) then
      eraseMarkerGo n ((c :: rest).drop " (original)".toList.length)
    else c :: eraseMarkerGo n rest

/-- Python `input_stem.replace(" (original)", "")`: erase every
non-overlapping occurrence of the backup marker, scanning left to right. -/
def eraseMarker (l : List Char) : List Char :=
  eraseMarkerGo l.length l

/-- The settings resolution at `src/amv/separator.py` line 171:
`get_model_settings(model_name)` — the `hw_info` argument is not passed, so
the detected hardware never reaches the engine configuration. -/
def run_separation_settings (model_name : String) : ModelSettings :=
  get_model_settings model_name none

/-- `mdx_params` as built at lines 195-200: `enable_fp16` is set only when
the resolved settings enable fp16, `batch_size` only when it exceeds 1. -/
structure MdxParams where
  enable_fp16 : Bool
  batch_size : Option Nat
deriving DecidableEq

def run_separation_mdx_params (model_name : String) : MdxParams :=
  let s := run_separation_settings model_name
  { enable_fp16 := s.fp16,
    batch_size := if s.batch_size > 1 then some s.batch_size else none }

def run_separation_vr_params (model_name : String) : Option Nat :=
  let s := run_separation_settings model_name
  if s.batch_size > 1 then some s.batch_size else none

/-- Outcome of the `separator.separate` library call. -/
inductive SepOutcome where
  | raise
  | ok (files : List String)

/-- `run_separation` (`src/amv/separator.py` lines 135-294) over an abstract
file system.  Parameters: the `os.path` decomposition of `input_file` into
directory, stem and extension; `PYDUB_OK`; the original duration in ms that
pydub reads; the outcome of `separator.separate` — an exception, or the
returned output-file list, in which case each returned name is created in the
output directory (content identifiers 100, 101, …) before post-processing.
In-place trimming rewrites a file at its own path and is not tracked as a
content change; exceptions raised outside the library call are not modelled.
Returns the success flag and the final file system. -/
def run_separation (inputDir inputStem inputExt : String)
    (pydubOk : Bool) (durationMs : Nat) (outcome : SepOutcome) (fs0 : FS) :
    Bool × FS :=
  let inputFilename := inputStem ++ inputExt
  let inputFile := inputDir ++ "/" ++ inputFilename
  let outputDir := inputDir
  let tempPath := outputDir ++ "/" ++ ("temp_" ++ inputFilename)
  let padded : Bool := pydubOk && decide (durationMs < 10000)
  let fs1 := if padded then fsSet fs0 tempPath 1 else fs0
  match outcome with
  | .raise =>
    (false,
     if padded && fsExists fs1 tempPath then fsRemove fs1 tempPath else fs1)
  | .ok files =>
    let fs2 := files.enum.foldl
      (fun fs p => fsSet fs (outputDir ++ "/" ++ p.2) (100 + p.1)) fs1
    if files.isEmpty then (false, fs2)
    else
      let cleanStem : String := ⟨eraseMarker inputStem.toList⟩
      let fs3 :=
        if !pyContains inputStem.toList "(original)".toList then
          let bkp := inputDir ++ "/" ++ (inputStem ++ " (original)" ++ inputExt)
          if !fsExists fs2 bkp then fsRename fs2 inputFile bkp else fs2
        else fs2
      let fs4 := files.foldl
        (fun fs f =>
          let src := outputDir ++ "/" ++ f
          if fsExists fs src then
            let suffix := if pyContains (pyLower f.toList) "vocal".toList
                          then "[vocals]" else "[instrumental]"
            let dst := inputDir ++ "/" ++ (cleanStem ++ " " ++ suffix ++ inputExt)
            let fs' := if fsExists fs dst then fsRemove fs dst else fs
            fsRename fs' src dst
          else fs)
        fs3
      let fs5 := if padded && fsExists fs4 tempPath then fsRemove fs4 tempPath
                 else fs4
      (true, fs5)

/-! ## Theorems -/

theorem head?_dropWhile_false (p : Char → Bool) :
    ∀ (l : List Char) (a : Char), (l.dropWhile p).head? = some a → p a = false
  | [], a, h => by simp at h
  | b :: t, a, h => by
    rw [List.dropWhile_cons] at h
    cases hb : p b with
    | true => rw [hb] at h; simp at h; exact head?_dropWhile_false p t a h
    | false =>
      rw [hb] at h
      simp at h
      rw [← h]; exact hb

theorem dropWhile_pyStrip (s : List Char) :
    (pyStrip s).dropWhile pyIsSpace = pyStrip s := by
  unfold pyStrip
  rcases hu : (s.dropWhile pyIsSpace).rdropWhile pyIsSpace with _ | ⟨a, u⟩
  · rfl
  · have hpre := List.rdropWhile_prefix pyIsSpace (s.dropWhile pyIsSpace)
    rw [hu] at hpre
    obtain ⟨r, hr⟩ := hpre
    have hhead : (s.dropWhile pyIsSpace).head? = some a := by rw [← hr]; rfl
    have hna : pyIsSpace a = false := head?_dropWhile_false pyIsSpace s a hhead
    rw [List.dropWhile_cons, hna]
    simp

theorem pyStrip_idempotent (s : List Char) : pyStrip (pyStrip s) = pyStrip s := by
  unfold pyStrip
  have h1 : (pyStrip s).dropWhile pyIsSpace = pyStrip s := dropWhile_pyStrip s
  unfold pyStrip at h1
  rw [h1]
  exact List.rdropWhile_idempotent _ _

/-! ### Properties of `_normalize_config` -/

theorem cleanRecents_sound :
    ∀ (l : List PyVal) (seen : List (List Char)),
      (∀ x ∈ cleanRecents l seen, CleanEntry x ∧ x ∉ seen) ∧
      (cleanRecents l seen).Nodup
  | [], seen => by simp [cleanRecents]
  | .vstr s :: rest, seen => by
    have ih1 := cleanRecents_sound rest seen
    have ih2 := cleanRecents_sound rest (pyStrip s :: seen)
    simp only [cleanRecents]
    split
    · exact ih1
    · rename_i hcond
      push_neg at hcond
      obtain ⟨hne, hnseen⟩ := hcond
      constructor
      · intro x hx
        rcases List.mem_cons.mp hx with hx | hx
        · subst hx
          exact ⟨⟨pyStrip_idempotent s, hne⟩, hnseen⟩
        · obtain ⟨hc, hs⟩ := ih2.1 x hx
          exact ⟨hc, fun hm => hs (List.mem_cons_of_mem _ hm)⟩
      · refine List.nodup_cons.mpr ⟨?_, ih2.2⟩
        intro hmem
        exact (ih2.1 _ hmem).2 (List.mem_cons_self _ _)
  | .vint n :: rest, seen => cleanRecents_sound rest seen
  | .vbool b :: rest, seen => cleanRecents_sound rest seen
  | .vlist l :: rest, seen => cleanRecents_sound rest seen
  | .vnone :: rest, seen => cleanRecents_sound rest seen
  | .vother t :: rest, seen => cleanRecents_sound rest seen

theorem cleanRecents_fixpoint :
    ∀ (l seen : List (List Char)),
      (∀ s ∈ l, CleanEntry s) → l.Nodup → (∀ s ∈ l, s ∉ seen) →
      cleanRecents (l.map .vstr) seen = l
  | [], _, _, _, _ => rfl
  | s :: rest, seen, hclean, hnodup, hseen => by
    have hcs := hclean s (List.mem_cons_self s rest)
    simp only [List.map_cons, cleanRecents]
    rw [hcs.1]
    have hcond : ¬(s = [] ∨ s ∈ seen) := by
      push_neg
      exact ⟨hcs.2, hseen s (List.mem_cons_self s rest)⟩
    rw [if_neg hcond]
    congr 1
    refine cleanRecents_fixpoint rest (s :: seen) ?_ ?_ ?_
    · exact fun x hx => hclean x (List.mem_cons_of_mem _ hx)
    · exact (List.nodup_cons.mp hnodup).2
    · intro x hx
      simp only [List.mem_cons, not_or]
      exact ⟨fun heq => (List.nodup_cons.mp hnodup).1 (heq ▸ hx),
             hseen x (List.mem_cons_of_mem _ hx)⟩

theorem normRecents_cleanList (v : PyVal) : CleanList (normRecents v) := by
  cases v with
  | vlist l =>
    exact ⟨fun x hx => ((cleanRecents_sound l []).1 x hx).1,
           (cleanRecents_sound l []).2⟩
  | vstr s => exact ⟨by simp [normRecents, defaultConfig], by simp [normRecents, defaultConfig]⟩
  | vint n => exact ⟨by simp [normRecents, defaultConfig], by simp [normRecents, defaultConfig]⟩
  | vbool b => exact ⟨by simp [normRecents, defaultConfig], by simp [normRecents, defaultConfig]⟩
  | vnone => exact ⟨by simp [normRecents, defaultConfig], by simp [normRecents, defaultConfig]⟩
  | vother t => exact ⟨by simp [normRecents, defaultConfig], by simp [normRecents, defaultConfig]⟩

theorem normRecents_fixpoint (l : List (List Char))
    (hclean : ∀ s ∈ l, CleanEntry s) (hnodup : l.Nodup) :
    normRecents (.vlist (l.map .vstr)) = l := by
  simpa [normRecents] using cleanRecents_fixpoint l [] hclean hnodup (by simp)

theorem normMaxRecent_bounds (v : PyVal) :
    1 ≤ normMaxRecent v ∧ normMaxRecent v ≤ 50 := by
  cases v with
  | vint n =>
    exact ⟨le_max_left 1 _, max_le (by norm_num) (min_le_left 50 n)⟩
  | vbool b =>
    exact ⟨le_max_left 1 _, max_le (by norm_num) (min_le_left 50 _)⟩
  | vstr s => exact ⟨by norm_num [normMaxRecent], by norm_num [normMaxRecent]⟩
  | vlist l => exact ⟨by norm_num [normMaxRecent], by norm_num [normMaxRecent]⟩
  | vnone => exact ⟨by norm_num [normMaxRecent], by norm_num [normMaxRecent]⟩
  | vother t => exact ⟨by norm_num [normMaxRecent], by norm_num [normMaxRecent]⟩

theorem normMaxRecent_fixpoint (n : Int) (h1 : 1 ≤ n) (h50 : n ≤ 50) :
    normMaxRecent (.vint n) = n := by
  simp only [normMaxRecent]
  rw [min_eq_right h50, max_eq_right h1]

theorem normSetup_mem (v : PyVal) :
    normSetup v = "cpu".toList ∨ normSetup v = "gpu".toList := by
  cases v with
  | vstr s =>
    simp only [normSetup]
    split
    · rename_i hcond
      exact hcond
    · exact Or.inl rfl
  | vint n => exact Or.inl rfl
  | vbool b => exact Or.inl rfl
  | vlist l => exact Or.inl rfl
  | vnone => exact Or.inl rfl
  | vother t => exact Or.inl rfl

theorem pyLower_cpu : pyLower "cpu".toList = "cpu".toList := by decide

theorem pyLower_gpu : pyLower "gpu".toList = "gpu".toList := by decide

theorem cpu_ne_gpu : "cpu".toList ≠ "gpu".toList := by decide

theorem normSetup_fixpoint (st : List Char)
    (h : st = "cpu".toList ∨ st = "gpu".toList) :
    normSetup (.vstr st) = st := by
  rcases h with h | h <;> subst h <;> simp only [normSetup]
  · rw [pyLower_cpu, if_pos (Or.inl rfl)]
  · rw [pyLower_gpu, if_pos (Or.inr rfl)]

theorem coherencePair_cpu (force : Bool) :
    coherencePair "cpu".toList force = ("cpu".toList, force) := by
  cases force <;> simp [coherencePair, cpu_ne_gpu]

theorem coherencePair_gpu (force : Bool) :
    coherencePair "gpu".toList force = ("gpu".toList, false) := by
  simp [coherencePair]

theorem coherencePair_sound (setup : List Char) (force : Bool)
    (h : setup = "cpu".toList ∨ setup = "gpu".toList) :
    ((coherencePair setup force).1 = "cpu".toList ∨
      (coherencePair setup force).1 = "gpu".toList) ∧
    ((coherencePair setup force).1 = "gpu".toList →
      (coherencePair setup force).2 = false) ∧
    ((coherencePair setup force).2 = true →
      (coherencePair setup force).1 = "cpu".toList) := by
  rcases h with h | h <;> subst h
  · rw [coherencePair_cpu]
    exact ⟨Or.inl rfl, fun hg => absurd hg cpu_ne_gpu, fun _ => rfl⟩
  · rw [coherencePair_gpu]
    exact ⟨Or.inr rfl, fun _ => rfl, fun hf => absurd hf (by simp)⟩

theorem coherencePair_fixpoint (c : NormConfig)
    (hmem : c.setup_type = "cpu".toList ∨ c.setup_type = "gpu".toList)
    (hcoh : Coherent c) :
    coherencePair c.setup_type c.force_cpu = (c.setup_type, c.force_cpu) := by
  rcases hmem with h | h
  · rw [h, coherencePair_cpu]
  · rw [h, coherencePair_gpu, hcoh.1 h]

theorem normalize_isNormal (raw : RawConfig) :
    IsNormal (normalize_config raw) := by
  cases raw with
  | notDict => decide
  | dict rfv mrv fcv stv =>
    simp only [normalize_config]
    have hrec := normRecents_cleanList (rfv.getD (.vlist []))
    have hmr := normMaxRecent_bounds (mrv.getD (.vint 10))
    have hst := normSetup_mem (stv.getD (.vstr "cpu".toList))
    have hpair := coherencePair_sound (normSetup (stv.getD (.vstr "cpu".toList)))
      (pyBool (fcv.getD (.vbool false))) hst
    refine ⟨⟨?_, ?_⟩, ?_, hmr.1, hmr.2, hpair.1, hpair.2.1, hpair.2.2⟩
    · exact fun s hs => hrec.1 s (List.mem_of_mem_take hs)
    · exact hrec.2.sublist (List.take_sublist _ _)
    · exact List.length_take_le _ _

theorem normalize_fixpoint (c : NormConfig) (h : IsNormal c) :
    normalize_config (toRaw c) = c := by
  obtain ⟨⟨hclean, hnodup⟩, hlen, h1, h50, hmem, hcoh⟩ := h
  cases c with
  | mk rf mr fc st =>
    simp only [toRaw, normalize_config, Option.getD_some]
    rw [normRecents_fixpoint rf hclean hnodup,
        normMaxRecent_fixpoint mr h1 h50,
        normSetup_fixpoint st hmem]
    have hcp : coherencePair st (pyBool (.vbool fc)) = (st, fc) :=
      coherencePair_fixpoint ⟨rf, mr, fc, st⟩ hmem hcoh
    rw [show pyBool (.vbool fc) = fc from rfl] at hcp ⊢
    rw [hcp]
    simp [List.take_of_length_le hlen]

/-! ### Claim theorems -/

/-- C4: for every raw configuration value, normalising twice equals
normalising once, and every normalised output satisfies the mode-coherence
invariant (`setup_type = "gpu"` forces `force_cpu = false`, and
`force_cpu = true` forces `setup_type = "cpu"`). -/
theorem claim_C4 (raw : RawConfig) :
    normalize_config (toRaw (normalize_config raw)) = normalize_config raw ∧
    Coherent (normalize_config raw) :=
  ⟨normalize_fixpoint _ (normalize_isNormal raw),
   (normalize_isNormal raw).2.2.2.2.2⟩

/-- C5: for every hardware descriptor reporting a GPU (`gpu_type` is not
`"cpu"`) with `fp16_capable = false` — a GPU physically present but CUDA
torch not installed — model selection returns the lightweight CPU-portable
Kim Vocal 2 model regardless of the VRAM amount, and the settings resolved
for it are that model's `cpu` settings (its preset has no `gpu` block at
all). -/
theorem claim_C5 (hw : HwInfo) (hgpu : hw.gpu_type ≠ some "cpu")
    (hfp : hw.fp16_capable = false) :
    get_active_model hw = KIM_VOCAL_2 ∧
    get_model_settings (get_active_model hw) (some hw) = ⟨false, 1⟩ ∧
    ∃ p, MODEL_PRESETS (get_active_model hw) = some p ∧ p.gpu = none ∧
      get_model_settings (get_active_model hw) (some hw) = p.cpu := by
  have hsel : get_active_model hw = KIM_VOCAL_2 := by
    unfold get_active_model
    rw [if_neg]
    intro hand
    rw [hfp] at hand
    exact Bool.false_ne_true hand.2
  rw [hsel]
  refine ⟨rfl, ?_, ?_⟩
  · unfold get_model_settings
    rw [show MODEL_PRESETS KIM_VOCAL_2 =
          some ⟨"Kim Vocal 2 (ONNX)", "onnx", ⟨false, 1⟩, none⟩ from rfl]
    simp
  · refine ⟨⟨"Kim Vocal 2 (ONNX)", "onnx", ⟨false, 1⟩, none⟩, rfl, rfl, ?_⟩
    unfold get_model_settings
    rw [show MODEL_PRESETS KIM_VOCAL_2 =
          some ⟨"Kim Vocal 2 (ONNX)", "onnx", ⟨false, 1⟩, none⟩ from rfl]
    simp

/-- Witness for C5 at a concrete descriptor: an NVIDIA GPU with 24 GB VRAM
but no CUDA-capable runtime. -/
theorem claim_C5_witness :
    (HwInfo.mk (some "nvidia") false (some 24000000000)).gpu_type ≠ some "cpu" ∧
    (HwInfo.mk (some "nvidia") false (some 24000000000)).fp16_capable = false ∧
    (get_active_model (HwInfo.mk (some "nvidia") false (some 24000000000)) =
        KIM_VOCAL_2 ∧
      get_model_settings
          (get_active_model (HwInfo.mk (some "nvidia") false (some 24000000000)))
          (some (HwInfo.mk (some "nvidia") false (some 24000000000))) =
        ⟨false, 1⟩ ∧
      ∃ p, MODEL_PRESETS
            (get_active_model (HwInfo.mk (some "nvidia") false (some 24000000000))) =
          some p ∧ p.gpu = none ∧
        get_model_settings
            (get_active_model (HwInfo.mk (some "nvidia") false (some 24000000000)))
            (some (HwInfo.mk (some "nvidia") false (some 24000000000))) =
          p.cpu) :=
  ⟨by decide, rfl,
   claim_C5 (HwInfo.mk (some "nvidia") false (some 24000000000))
     (by decide) rfl⟩

/-- C9: `run_separation` resolves its engine settings by calling
`get_model_settings` with no hardware descriptor, so for both bundled models
the engine is configured with the model's `cpu` settings — fp16 disabled and
batch size 1 — and neither an `enable_fp16` flag nor a `batch_size` override
reaches `mdx_params`/`vr_params`, whatever hardware was detected (the call at
line 171 simply never consults the hardware state). -/
theorem claim_C9 (m : String) (hm : m = KIM_VOCAL_2 ∨ m = BS_ROFORMER) :
    run_separation_settings m = ⟨false, 1⟩ ∧
    (∃ p, MODEL_PRESETS m = some p ∧ run_separation_settings m = p.cpu) ∧
    run_separation_mdx_params m = ⟨false, none⟩ ∧
    run_separation_vr_params m = none ∧
    run_separation_settings m = get_model_settings m none := by
  rcases hm with hm | hm <;> subst hm
  · exact ⟨rfl, ⟨⟨"Kim Vocal 2 (ONNX)", "onnx", ⟨false, 1⟩, none⟩, rfl, rfl⟩,
      rfl, rfl, rfl⟩
  · exact ⟨rfl,
      ⟨⟨"BS-Roformer (Best Quality)", "pytorch", ⟨false, 1⟩, some ⟨true, 1⟩⟩,
        rfl, rfl⟩, rfl, rfl, rfl⟩

/-- Witness for C9 at the model `run_separation` is actually invoked with. -/
theorem claim_C9_witness :
    (KIM_VOCAL_2 = KIM_VOCAL_2 ∨ KIM_VOCAL_2 = BS_ROFORMER) ∧
    (run_separation_settings KIM_VOCAL_2 = ⟨false, 1⟩ ∧
      (∃ p, MODEL_PRESETS KIM_VOCAL_2 = some p ∧
        run_separation_settings KIM_VOCAL_2 = p.cpu) ∧
      run_separation_mdx_params KIM_VOCAL_2 = ⟨false, none⟩ ∧
      run_separation_vr_params KIM_VOCAL_2 = none ∧
      run_separation_settings KIM_VOCAL_2 = get_model_settings KIM_VOCAL_2 none) :=
  ⟨Or.inl rfl, claim_C9 KIM_VOCAL_2 (Or.inl rfl)⟩

/-- C6 counterexample: the claim says every not-already-satisfied switch gets
a three-step plan, but the CPU switch plan returned by `get_cpu_switch_cmds`
has four steps (uninstall torch, install CPU torch, install onnxruntime,
install audio-separator). -/
theorem claim_C6_counterexample :
    (get_cpu_switch_cmds "python").length = 4 := rfl

/-- C6 amended: the GPU switch plan has three steps and the CPU switch plan
four (it installs both onnxruntime and the backend package after the
runtime); in both plans the pip subcommand sequence starts with the single
`uninstall` step followed only by `install` steps, so the uninstall strictly
precedes every install; the GPU runtime install selects the cu128 accelerator
index URL, and each plan ends installing its mode-specific backend package. -/
theorem claim_C6 (py : String) :
    (get_gpu_switch_cmds py).length = 3 ∧
    (get_cpu_switch_cmds py).length = 4 ∧
    (get_gpu_switch_cmds py).map (fun cmd => cmd.getD 3 "") =
      ["uninstall", "install", "install"] ∧
    (get_cpu_switch_cmds py).map (fun cmd => cmd.getD 3 "") =
      ["uninstall", "install", "install", "install"] ∧
    ((get_gpu_switch_cmds py).getD 1 []).getD 8 "" =
      "https://download.pytorch.org/whl/cu128" ∧
    ((get_cpu_switch_cmds py).getD 1 []).getD 8 "" =
      "https://download.pytorch.org/whl/cpu" ∧
    ((get_gpu_switch_cmds py).getD 2 []).getD 4 "" = "audio-separator[gpu]" ∧
    ((get_cpu_switch_cmds py).getD 3 []).getD 4 "" = "audio-separator" :=
  ⟨rfl, rfl, rfl, rfl, rfl, rfl, rfl, rfl⟩

/-- C1: evaluation of the finalisation step of `run_separation` at an input
whose computed destination `/music/song [vocals].wav` is already occupied by
an older file (content 7).  The code removes the pre-existing file and
renames the fresh output (content 100) over it — content 7 is destroyed —
instead of picking the collision-safe name `song [vocals] (1).wav` that the
spec and the repository's own tests (`test_separator_paths.py`, importing
the absent `_get_unique_path`) require. -/
theorem claim_C1_overwrite :
    run_separation "/music" "song" ".wav" false 30000
        (.ok ["song_(Vocals)_Kim.wav"])
        [("/music/song.wav", 0), ("/music/song [vocals].wav", 7)] =
      (true,
       [("/music/song [vocals].wav", 100), ("/music/song (original).wav", 0)]) ∧
    ((run_separation "/music" "song" ".wav" false 30000
        (.ok ["song_(Vocals)_Kim.wav"])
        [("/music/song.wav", 0), ("/music/song [vocals].wav", 7)]).2.map
      Prod.snd).count 7 = 0 := by decide

/-- C3: evaluation of `run_separation` on a 3-second input (shorter than the
10-second floor, so the padded sibling `temp_song.wav` is created) when the
library returns no outputs: the job fails but the early `return False` at
line 243 skips cleanup and the temporary padded file is left on disk, while
the exception path (and the success path) do remove it. -/
theorem claim_C3_temp_leak :
    (run_separation "/music" "song" ".wav" true 3000 (.ok [])
        [("/music/song.wav", 0)]).1 = false ∧
    fsExists (run_separation "/music" "song" ".wav" true 3000 (.ok [])
        [("/music/song.wav", 0)]).2 "/music/temp_song.wav" = true ∧
    fsExists (run_separation "/music" "song" ".wav" true 3000 .raise
        [("/music/song.wav", 0)]).2 "/music/temp_song.wav" = false ∧
    fsExists (run_separation "/music" "song" ".wav" true 3000
        (.ok ["song_(Vocals)_Kim.wav"])
        [("/music/song.wav", 0)]).2 "/music/temp_song.wav" = false := by decide

/-- C7: when the stored mode already equals the target and the live
`verify_cuda_torch()` probe confirms the target runtime (usable CUDA for the
GPU target, no CUDA for the CPU target), the collectors return an empty
install plan and empty issues with the `success_mode` flag set, and
`_apply_results` then skips installation (no install button) and goes
straight to persisting the mode through `_show_success_for_mode`, whose
saved record carries the target mode coherently. -/
theorem claim_C7 (py : String) (c : NormConfig) (curg curc : String)
    (hg : curg = "gpu") (hc : curc = "cpu") :
    collect_gpu_switch true curg py =
      { issues := [], installs := [], success_mode := some "gpu" } ∧
    apply_results (collect_gpu_switch true curg py) c =
      (some (show_success_for_mode c "gpu"), false) ∧
    (show_success_for_mode c "gpu").setup_type = "gpu".toList ∧
    (show_success_for_mode c "gpu").force_cpu = false ∧
    collect_cpu_switch false curc py =
      { issues := [], installs := [], success_mode := some "cpu" } ∧
    apply_results (collect_cpu_switch false curc py) c =
      (some (show_success_for_mode c "cpu"), false) ∧
    (show_success_for_mode c "cpu").setup_type = "cpu".toList ∧
    (show_success_for_mode c "cpu").force_cpu = true := by
  subst hg hc
  exact ⟨rfl, rfl, rfl, rfl, rfl, rfl, rfl, rfl⟩

/-- Witness for C7 at concrete stored modes and configuration. -/
theorem claim_C7_witness :
    ("gpu" : String) = "gpu" ∧ ("cpu" : String) = "cpu" ∧
    (collect_gpu_switch true "gpu" "python" =
        { issues := [], installs := [], success_mode := some "gpu" } ∧
      apply_results (collect_gpu_switch true "gpu" "python") defaultConfig =
        (some (show_success_for_mode defaultConfig "gpu"), false) ∧
      (show_success_for_mode defaultConfig "gpu").setup_type = "gpu".toList ∧
      (show_success_for_mode defaultConfig "gpu").force_cpu = false ∧
      collect_cpu_switch false "cpu" "python" =
        { issues := [], installs := [], success_mode := some "cpu" } ∧
      apply_results (collect_cpu_switch false "cpu" "python") defaultConfig =
        (some (show_success_for_mode defaultConfig "cpu"), false) ∧
      (show_success_for_mode defaultConfig "cpu").setup_type = "cpu".toList ∧
      (show_success_for_mode defaultConfig "cpu").force_cpu = true) :=
  ⟨rfl, rfl, claim_C7 "python" defaultConfig "gpu" "cpu" rfl rfl⟩

/-- A run whose cancellation flag is never raised completes its loop. -/
theorem install_loop_completes :
    ∀ (steps : List (Bool × StepResult)) (i : Nat),
      (∀ s ∈ steps, s.1 = false) →
      (install_worker_loop steps i).2.2 = true
  | [], _, _ => rfl
  | (cancelled, r) :: rest, i, h => by
    have hc : cancelled = false := h (cancelled, r) (List.mem_cons_self _ _)
    subst hc
    simp only [install_worker_loop, if_neg (Bool.false_ne_true)]
    exact install_loop_completes rest (i + 1)
      (fun s hs => h s (List.mem_cons_of_mem _ hs))

/-- C2: over a three-step plan where step 2 exits non-zero and steps 1 and 3
succeed (and cancellation never fires), the install worker still launches all
three steps, collects exactly one error entry — labelled `Step 2` and
carrying the classified message — and persists nothing; and in general, for
any non-cancelled run, a configuration is persisted if and only if the error
list is empty. -/
theorem claim_C2 (l1 l3 stderr : List String) (rc : Int)
    (c : NormConfig) (target : String) (steps : List (Bool × StepResult))
    (hrc : rc ≠ 0) (hnc : ∀ s ∈ steps, s.1 = false) :
    (install_worker_outcome
        [(false, .completed 0 l1), (false, .completed rc stderr),
         (false, .completed 0 l3)] c target).1 = 3 ∧
    (install_worker_outcome
        [(false, .completed 0 l1), (false, .completed rc stderr),
         (false, .completed 0 l3)] c target).2.1 =
      ["Step 2: " ++ classifyError rc stderr] ∧
    (install_worker_outcome
        [(false, .completed 0 l1), (false, .completed rc stderr),
         (false, .completed 0 l3)] c target).2.2 = none ∧
    ((install_worker_outcome steps c target).2.2.isSome = true ↔
      (install_worker_outcome steps c target).2.1 = []) := by
  have hscen :
      install_worker_loop
        [(false, .completed 0 l1), (false, .completed rc stderr),
         (false, .completed 0 l3)] 0 =
      (3, ["Step 2: " ++ classifyError rc stderr], true) := by
    simp only [install_worker_loop, stepError, if_neg Bool.false_ne_true,
      if_neg (by omega : ¬(0 : Int) ≠ 0), if_pos hrc]
    rfl
  refine ⟨?_, ?_, ?_, ?_⟩
  · simp [install_worker_outcome, hscen]
  · simp [install_worker_outcome, hscen]
  · simp [install_worker_outcome, hscen]
  · have hfin := install_loop_completes steps 0 hnc
    by_cases he : (install_worker_loop steps 0).2.1 = []
    · simp [install_worker_outcome, hfin, he]
    · simp [install_worker_outcome, hfin, he]

/-- Witness for C2 at a concrete failing plan: step 2 exits 1 with a plain
stderr line, the surrounding steps succeed, no cancellation. -/
theorem claim_C2_witness :
    (1 : Int) ≠ 0 ∧
    (∀ s ∈ ([] : List (Bool × StepResult)), s.1 = false) ∧
    ((install_worker_outcome
        [(false, .completed 0 []), (false, .completed 1 ["ERROR: boom"]),
         (false, .completed 0 [])] defaultConfig "gpu").1 = 3 ∧
      (install_worker_outcome
        [(false, .completed 0 []), (false, .completed 1 ["ERROR: boom"]),
         (false, .completed 0 [])] defaultConfig "gpu").2.1 =
        ["Step 2: " ++ classifyError 1 ["ERROR: boom"]] ∧
      (install_worker_outcome
        [(false, .completed 0 []), (false, .completed 1 ["ERROR: boom"]),
         (false, .completed 0 [])] defaultConfig "gpu").2.2 = none ∧
      ((install_worker_outcome [] defaultConfig "gpu").2.2.isSome = true ↔
        (install_worker_outcome [] defaultConfig "gpu").2.1 = [])) :=
  ⟨by decide, by simp,
   claim_C2 [] [] ["ERROR: boom"] 1 defaultConfig "gpu" [] (by decide) (by simp)⟩

/-- C8 counterexample: feeding the download worker the same `45.0%` progress
line twice for one stream produces two bar-update events, not at most one —
the worker has no last-value de-duplication. -/
theorem claim_C8_counterexample :
    downloadEvents "audio"
        ["[download]  45.0% of 3.00MiB", "[download]  45.0% of 3.00MiB"] =
      [("audio-bar", "45.0".toList), ("audio-bar", "45.0".toList)] ∧
    (downloadEvents "audio"
        ["[download]  45.0% of 3.00MiB", "[download]  45.0% of 3.00MiB"]).length
      = 2 := by decide

theorem downloadStep_length (mode : String) (dc : Nat) (line : String) :
    (downloadStep mode dc line).2.length =
      if (parsePct line).isSome then 1 else 0 := by
  unfold downloadStep
  rcases h : parsePct line with _ | pct <;> simp only [h] <;> split_ifs <;>
    simp_all

theorem downloadEventsFrom_length (mode : String) :
    ∀ (lines : List String) (dc : Nat),
      (downloadEventsFrom mode dc lines).length =
        lines.countP (fun l => (parsePct l).isSome)
  | [], _ => by simp [downloadEventsFrom]
  | line :: rest, dc => by
    simp only [downloadEventsFrom, List.length_append, downloadStep_length,
      List.countP_cons]
    rw [downloadEventsFrom_length mode rest (downloadStep mode dc line).1]
    cases h : (parsePct line).isSome <;> simp [h] <;> omega

/-- Case split on one `TqdmCapture.write`: either nothing is emitted and
`last_percent` is unchanged, or the parsed percentage differs from
`last_percent`, is emitted, and becomes the new `last_percent`. -/
theorem tqdmWrite_cases (last : Int) (t : String) :
    ((tqdmWrite last t).2 = none ∧ (tqdmWrite last t).1 = last) ∨
    (∃ p : Nat, (tqdmWrite last t).2 = some p ∧
      (tqdmWrite last t).1 = (p : Int) ∧ (p : Int) ≠ last) := by
  unfold tqdmWrite
  split
  · exact Or.inl ⟨rfl, rfl⟩
  · rcases hs : tqdmSearch t with _ | p
    · exact Or.inl ⟨rfl, rfl⟩
    · by_cases hp : (p : Int) ≠ last
      · exact Or.inr ⟨p, by simp [hp], by simp [hp], hp⟩
      · exact Or.inl ⟨by simp [hp], by simp [hp]⟩

theorem tqdm_invariant :
    ∀ (texts : List String) (last : Int),
      (∀ p, (tqdmEventsFrom last texts).head? = some p → (p : Int) ≠ last) ∧
      (tqdmEventsFrom last texts).Chain' (· ≠ ·)
  | [], last => by
    constructor
    · intro p hp
      simp [tqdmEventsFrom] at hp
    · simp [tqdmEventsFrom]
  | t :: rest, last => by
    rcases tqdmWrite_cases last t with ⟨he, hl⟩ | ⟨p, he, hl, hne⟩
    · have ih := tqdm_invariant rest last
      simp only [tqdmEventsFrom, he, hl, List.nil_append]
      exact ih
    · have ih := tqdm_invariant rest (p : Int)
      simp only [tqdmEventsFrom, he, hl, List.singleton_append]
      constructor
      · intro q hq
        rw [List.head?_cons, Option.some.injEq] at hq
        rw [← hq]
        exact hne
      · refine List.chain'_cons'.mpr ⟨?_, ih.2⟩
        intro b hb
        intro hpb
        exact ih.1 b hb (by rw [← hpb])

/-- C8 amended: the download worker performs no de-duplication — it emits
exactly one bar-update event for every line in which the progress regex
parses a percentage, repeats included (so equal consecutive percentages for
one stream produce one event each); last-value de-duplication exists only in
the inference-side marker-scan capture (`TqdmCapture`), whose emitted
percentage sequence never repeats consecutively. -/
theorem claim_C8 (mode : String) (lines : List String) (texts : List String) :
    (downloadEvents mode lines).length =
      lines.countP (fun l => (parsePct l).isSome) ∧
    (tqdmEvents texts).Chain' (· ≠ ·) :=
  ⟨downloadEventsFrom_length mode lines 0, (tqdm_invariant texts (-1)).2⟩

/-- C10 counterexample: calling `add_recent_file` with the empty-string path
on a freshly loaded default configuration persists a recent list that does
not contain the path at all (save-time normalisation strips and drops it), so
the persisted list does not hold the path exactly once in first position. -/
theorem claim_C10_counterexample :
    (add_recent_file defaultConfig []).recent_files = [] ∧
    (add_recent_file defaultConfig []).recent_files.count [] = 0 := by decide

/-- C10 amended: for a loaded (normalised) configuration and a path that
save-time normalisation keeps intact — non-empty and equal to its own strip —
the persisted list after `add_recent_file` holds the path exactly once and
first, is duplicate-free, keeps the surviving previous entries in their
relative order (the tail is a sublist of the previous list), keeps
`max_recent`, and never exceeds it in length. -/
theorem claim_C10 (c : NormConfig) (p : List Char)
    (hc : IsNormal c) (hstrip : pyStrip p = p) (hne : p ≠ []) :
    (add_recent_file c p).recent_files.head? = some p ∧
    (add_recent_file c p).recent_files.count p = 1 ∧
    (add_recent_file c p).recent_files.Nodup ∧
    (add_recent_file c p).max_recent = c.max_recent ∧
    (add_recent_file c p).recent_files.length ≤ c.max_recent.toNat ∧
    (add_recent_file c p).recent_files.tail.Sublist c.recent_files := by
  obtain ⟨⟨hclean, hnodup⟩, hlen, h1, h50, hmem, hcoh⟩ := hc
  have hl1 : (if p ∈ c.recent_files then c.recent_files.erase p
              else c.recent_files) = c.recent_files.erase p := by
    by_cases hp : p ∈ c.recent_files
    · rw [if_pos hp]
    · rw [if_neg hp, List.erase_of_not_mem hp]
  have hpnot : p ∉ c.recent_files.erase p := by
    intro hmem'
    exact ((List.Nodup.mem_erase_iff hnodup).mp hmem').1 rfl
  have hcleanL : ∀ s ∈ (p :: c.recent_files.erase p).take c.max_recent.toNat,
      CleanEntry s := by
    intro s hs
    rcases List.mem_cons.mp (List.mem_of_mem_take hs) with h | h
    · subst h; exact ⟨hstrip, hne⟩
    · exact hclean s (List.mem_of_mem_erase h)
  have hnodupL : ((p :: c.recent_files.erase p).take c.max_recent.toNat).Nodup :=
    (List.nodup_cons.mpr ⟨hpnot, hnodup.erase p⟩).sublist (List.take_sublist _ _)
  have hnormL : IsNormal ⟨(p :: c.recent_files.erase p).take c.max_recent.toNat,
      c.max_recent, c.force_cpu, c.setup_type⟩ :=
    ⟨⟨hcleanL, hnodupL⟩, List.length_take_le _ _, h1, h50, hmem, hcoh⟩
  have hadd : add_recent_file c p =
      ⟨(p :: c.recent_files.erase p).take c.max_recent.toNat,
       c.max_recent, c.force_cpu, c.setup_type⟩ := by
    unfold add_recent_file
    simp only [hl1]
    exact normalize_fixpoint _ hnormL
  obtain ⟨k, hk⟩ : ∃ k, c.max_recent.toNat = k + 1 :=
    ⟨c.max_recent.toNat - 1, by omega⟩
  have hLeq : (p :: c.recent_files.erase p).take c.max_recent.toNat =
      p :: (c.recent_files.erase p).take k := by
    rw [hk, List.take_succ_cons]
  have hcount : ((c.recent_files.erase p).take k).count p = 0 := by
    rw [List.count_eq_zero]
    intro hmem'
    exact hpnot (List.mem_of_mem_take hmem')
  rw [hadd]
  refine ⟨?_, ?_, hnodupL, rfl, List.length_take_le _ _, ?_⟩
  · rw [hLeq]; rfl
  · rw [hLeq, List.count_cons_self, hcount]
  · rw [hLeq]
    exact List.Sublist.trans (List.take_sublist _ _) (List.erase_sublist _ _)

/-- Witness for C10 at a concrete configuration holding two older entries and
a fresh non-empty, already-stripped path. -/
theorem claim_C10_witness :
    IsNormal (NormConfig.mk [['a'], ['b']] 10 false "cpu".toList) ∧
    pyStrip ['b'] = ['b'] ∧
    (['b'] ≠ ([] : List Char)) ∧
    ((add_recent_file (NormConfig.mk [['a'], ['b']] 10 false "cpu".toList)
        ['b']).recent_files.head? = some ['b'] ∧
      (add_recent_file (NormConfig.mk [['a'], ['b']] 10 false "cpu".toList)
        ['b']).recent_files.count ['b'] = 1 ∧
      (add_recent_file (NormConfig.mk [['a'], ['b']] 10 false "cpu".toList)
        ['b']).recent_files.Nodup ∧
      (add_recent_file (NormConfig.mk [['a'], ['b']] 10 false "cpu".toList)
        ['b']).max_recent =
        (NormConfig.mk [['a'], ['b']] 10 false "cpu".toList).max_recent ∧
      (add_recent_file (NormConfig.mk [['a'], ['b']] 10 false "cpu".toList)
        ['b']).recent_files.length ≤
        (NormConfig.mk [['a'], ['b']] 10 false "cpu".toList).max_recent.toNat ∧
      (add_recent_file (NormConfig.mk [['a'], ['b']] 10 false "cpu".toList)
        ['b']).recent_files.tail.Sublist
        (NormConfig.mk [['a'], ['b']] 10 false "cpu".toList).recent_files) :=
  ⟨by decide, by decide, by decide,
   claim_C10 (NormConfig.mk [['a'], ['b']] 10 false "cpu".toList) ['b']
     (by decide) (by decide) (by decide)⟩

end AMV
